import Mathlib

/-!
Verification of the AirVoucher agent-portal aggregation core.

The data-access layer in `src/actions/agentActions.ts` and the stored
procedure `src/lib/sale/get_agent_commission_statement.sql` are shallowly
embedded here.  Timestamps are modelled as natural numbers (milliseconds
since an epoch); calendar dates as day numbers, with `dayMs` milliseconds
per day, so the SQL promotion of a `date` to a midnight timestamp is
`d * dayMs`.  Monetary amounts are integers (minor currency units).
Fallible queries are modelled with `Except`/`Option`; the relational
store is an explicit `DB` value of row lists.
-/

/-- Milliseconds in one day; a calendar date `d` corresponds to the
timestamp interval `[d * dayMs, (d+1) * dayMs)`. -/
def dayMs : Nat := 86400000

/-- A row of the `sales` table. -/
structure Sale where
  id : String
  terminal_id : String
  voucher_inventory_id : String
  created_at : Nat
  sale_amount : Int
  agent_commission : Int
deriving DecidableEq, Repr

/-- A row of the `terminals` table. -/
structure Terminal where
  id : String
  name : String
  retailer_id : String
deriving DecidableEq, Repr

/-- Retailer status values from the `AgentRetailer` type. -/
inductive RetailerStatus where
  | active
  | suspended
  | inactive
  | blocked
deriving DecidableEq, Repr

/-- A row of the `retailers` table (the fields the claims touch). -/
structure Retailer where
  id : String
  name : String
  status : RetailerStatus
  agent_profile_id : String
deriving DecidableEq, Repr

/-- A row of the `transactions` table (agent payout records). -/
structure AgentTransaction where
  id : String
  agent_profile_id : String
  created_at : Nat
  type : String
  amount : Int
  notes : Option String
deriving DecidableEq, Repr

/-- A row of the `voucher_inventory` table. -/
structure VoucherInventory where
  id : String
  voucher_type_id : String
deriving DecidableEq, Repr

/-- A row of the `voucher_types` table. -/
structure VoucherType where
  id : String
  name : String
deriving DecidableEq, Repr

/-- A row of the `bank_accounts` table. -/
structure BankAccountRow where
  id : Nat
  profile_id : String
  bank_name : String
  account_holder : String
  account_number : String
  branch_code : Option String
  account_type : String
  is_primary : Bool
  created_at : Nat
  updated_at : Nat
deriving DecidableEq, Repr

/-- The relational store the queries run against. -/
structure DB where
  retailers : List Retailer
  terminals : List Terminal
  sales : List Sale
  transactions : List AgentTransaction
  voucher_inventory : List VoucherInventory
  voucher_types : List VoucherType
deriving DecidableEq, Repr

/-- `reduce((sum, x) => sum + f(x), 0)` over a row list. -/
def sumBy (f : α → Int) : List α → Int
  | [] => 0
  | x :: xs => f x + sumBy f xs

/-- Key lookup `join terminals t on s.terminal_id = t.id`. -/
def findTerminal (db : DB) (tid : String) : Option Terminal :=
  db.terminals.find? (fun u => u.id == tid)

/-- Key lookup `join retailers r on t.retailer_id = r.id`. -/
def findRetailer (db : DB) (rid : String) : Option Retailer :=
  db.retailers.find? (fun r => r.id == rid)

/-- The retailer a sale belongs to, through its terminal. -/
def saleRetailer (db : DB) (s : Sale) : Option Retailer :=
  (findTerminal db s.terminal_id).bind (fun u => findRetailer db u.retailer_id)

/-- The voucher-type name of a sale, through `voucher_inventory` and
`voucher_types`. -/
def saleVoucherTypeName (db : DB) (s : Sale) : Option String :=
  ((db.voucher_inventory.find? (fun vi => vi.id == s.voucher_inventory_id)).bind
    (fun vi => db.voucher_types.find? (fun vt => vt.id == vi.voucher_type_id))).map
    (fun vt => vt.name)

/-- `sales … !inner terminals` filtered on `terminals.retailer_id = retailerId`:
true when the sale's terminal belongs to the given retailer. -/
def saleOfRetailer (db : DB) (retailerId : String) (s : Sale) : Bool :=
  match findTerminal db s.terminal_id with
  | some u => u.retailer_id == retailerId
  | none => false

/-- True when the sale is transitively owned by the agent
(`r.agent_profile_id = p_agent_id` after the terminal/retailer joins). -/
def saleOwnedByAgent (db : DB) (agentId : String) (s : Sale) : Bool :=
  match saleRetailer db s with
  | some r => r.agent_profile_id == agentId
  | none => false

/-- The SQL window predicate of `get_agent_commission_statement`:
`created_at >= p_start_date and created_at < (p_end_date + interval '1 day')`,
with the two dates promoted to midnight timestamps. -/
def inStatementWindow (startDate endDate ts : Nat) : Bool :=
  decide (startDate * dayMs ≤ ts) && decide (ts < (endDate + 1) * dayMs)

/-- Modelled from the spec: the `get_agent_summary` stored procedure is
referenced by the code (TS RPC call and the SQL statement builder) but its
body is not in the repository.  Per spec section 4.2, `total_commission` is
the sum of `agent_commission` over all sales transitively owned by the
agent and `paid_commission` is the sum of `amount` over the agent's
`commission_payout` transactions.  Returned as
`(total_commission, paid_commission)`. -/
def get_agent_summary (db : DB) (agentId : String) : Int × Int :=
  (sumBy (fun s => s.agent_commission)
      (db.sales.filter (saleOwnedByAgent db agentId)),
   sumBy (fun u => u.amount)
      (db.transactions.filter
        (fun u => u.agent_profile_id == agentId && u.type == "commission_payout")))

/-- One line item of a commission statement (`jsonb_build_object` rows). -/
structure StatementLine where
  date : Nat
  retailer_name : Option String
  type : String
  value : Int
  commission : Int
  status : String
deriving DecidableEq, Repr

/-- The `stats` object of a commission statement. -/
structure CommissionStats where
  total_commission : Int
  paid_commission : Int
  pending_commission : Int
  transaction_count : Nat
deriving DecidableEq, Repr

/-- The value built by `get_agent_commission_statement`. -/
structure CommissionStatement where
  stats : CommissionStats
  pending_transactions : List StatementLine
  paid_transactions : List StatementLine
deriving DecidableEq, Repr

/-- One row of the statement's sales query: the inner joins
(terminal, retailer, voucher inventory, voucher type) must all resolve,
the retailer must belong to the agent, and `created_at` must fall in the
window; then the row is mapped to a `Pending` line item. -/
def saleStatementRow (db : DB) (agentId : String) (startDate endDate : Nat)
    (s : Sale) : Option StatementLine :=
  match saleRetailer db s, saleVoucherTypeName db s with
  | some r, some vtName =>
    if r.agent_profile_id == agentId
        && inStatementWindow startDate endDate s.created_at then
      some { date := s.created_at, retailer_name := some r.name,
             type := vtName, value := s.sale_amount,
             commission := s.agent_commission, status := "Pending" }
    else none
  | _, _ => none

/-- `v_sales`: the agent's sales in the date range, as `Pending` lines. -/
def pendingLines (db : DB) (agentId : String) (startDate endDate : Nat) :
    List StatementLine :=
  db.sales.filterMap (saleStatementRow db agentId startDate endDate)

/-- `v_payouts`: the agent's `commission_payout` transactions in the date
range, as `Paid` lines. -/
def paidLines (db : DB) (agentId : String) (startDate endDate : Nat) :
    List StatementLine :=
  (db.transactions.filter
      (fun u => u.agent_profile_id == agentId
        && u.type == "commission_payout"
        && inStatementWindow startDate endDate u.created_at)).map
    (fun u => { date := u.created_at, retailer_name := u.notes,
                type := "Commission Payout", value := 0,
                commission := u.amount, status := "Paid" })

/-- The stored procedure `get_agent_commission_statement(p_agent_id,
p_start_date, p_end_date)`: all-time summary from `get_agent_summary`,
date-filtered pending and paid line items, and stats with
`pending_commission` derived as `total_commission - paid_commission`
and `transaction_count` the length of `v_sales`. -/
def get_agent_commission_statement (db : DB) (agentId : String)
    (startDate endDate : Nat) : CommissionStatement :=
  let summary := get_agent_summary db agentId
  let v_sales := pendingLines db agentId startDate endDate
  let v_payouts := paidLines db agentId startDate endDate
  { stats := { total_commission := summary.1,
               paid_commission := summary.2,
               pending_commission := summary.1 - summary.2,
               transaction_count := v_sales.length },
    pending_transactions := v_sales,
    paid_transactions := v_payouts }

/-- Outcome of the retailer status update: resulting store contents, the
returned error, and whether a query was issued against the store. -/
structure UpdateStatusOutcome where
  db : DB
  error : Option String
  queryIssued : Bool
deriving DecidableEq, Repr

/-- `updateRetailerStatus(agentId, retailerId, status)`: an empty
`agentId` is rejected with `Missing agent identifier` before any query;
otherwise a single filtered update sets `status` on rows matching both
`id = retailerId` and `agent_profile_id = agentId`, and the call reports
no error regardless of how many rows matched. -/
def updateRetailerStatus (db : DB) (agentId retailerId : String)
    (status : RetailerStatus) : UpdateStatusOutcome :=
  if agentId == "" then
    { db := db, error := some "Missing agent identifier", queryIssued := false }
  else
    { db := { db with retailers := db.retailers.map (fun r =>
        if r.id == retailerId && r.agent_profile_id == agentId then
          { r with status := status }
        else r) },
      error := none, queryIssued := true }

/-- Outcome of the commission statement fetch. -/
structure StatementFetchOutcome where
  data : Option CommissionStatement
  error : Option String
  queryIssued : Bool
deriving DecidableEq, Repr

/-- `fetchCommissionStatement(agentId, startDate, endDate)`: the TS
wrapper performs no input validation and immediately issues the
`get_agent_commission_statement` RPC, returning its result. -/
def fetchCommissionStatement (db : DB) (agentId : String)
    (startDate endDate : Nat) : StatementFetchOutcome :=
  { data := some (get_agent_commission_statement db agentId startDate endDate),
    error := none, queryIssued := true }

/-- A one-agent demo store: retailer `r1` owned by agent `A`, one
terminal, one voucher chain, and one sale on calendar day 5. -/
def demoRetailer : Retailer :=
  { id := "r1", name := "Shop One", status := RetailerStatus.active,
    agent_profile_id := "A" }

/-- Demo terminal of retailer `r1`. -/
def demoTerminal : Terminal :=
  { id := "t1", name := "Till 1", retailer_id := "r1" }

/-- Demo voucher type. -/
def demoVoucherType : VoucherType := { id := "vt1", name := "Airtime" }

/-- Demo voucher inventory row. -/
def demoInventory : VoucherInventory :=
  { id := "vi1", voucher_type_id := "vt1" }

/-- Demo sale at one second past midnight on day 5. -/
def demoSale : Sale :=
  { id := "s1", terminal_id := "t1", voucher_inventory_id := "vi1",
    created_at := 5 * dayMs + 1000, sale_amount := 100,
    agent_commission := 10 }

/-- The demo store. -/
def demoDB : DB :=
  { retailers := [demoRetailer], terminals := [demoTerminal],
    sales := [demoSale], transactions := [],
    voucher_inventory := [demoInventory],
    voucher_types := [demoVoucherType] }

/-- **C1.** For every agent and every date range, the statement's
`pending_commission` equals `total_commission - paid_commission` exactly,
derived from the other two fields, including when both are zero. -/
theorem commission_statement_pending_reconciles
    (db : DB) (agentId : String) (startDate endDate : Nat) :
    (get_agent_commission_statement db agentId startDate endDate).stats.pending_commission
      = (get_agent_commission_statement db agentId startDate endDate).stats.total_commission
        - (get_agent_commission_statement db agentId startDate endDate).stats.paid_commission :=
  rfl

/-- **C7.** For every agent and date range, `stats.transaction_count`
equals the number of pending (sale-derived) line items only; paid
transactions are not counted. -/
theorem commission_statement_transaction_count
    (db : DB) (agentId : String) (startDate endDate : Nat) :
    (get_agent_commission_statement db agentId startDate endDate).stats.transaction_count
      = (get_agent_commission_statement db agentId startDate endDate).pending_transactions.length :=
  rfl

/-- **C2.** For every statement range `[startDate, endDate]`, a sale of
the agent whose `created_at` lies anywhere on the `endDate` calendar day
(up to its last millisecond, 23:59:59.999) yields a line in
`pending_transactions`, and a sale at `endDate + 1` day 00:00:00 or later
contributes no line: the effective upper bound is `endDate + 1` day,
exclusive. -/
theorem statement_end_date_boundary
    (db : DB) (agentId : String) (startDate endDate : Nat) (s : Sale)
    (hmem : s ∈ db.sales) (r : Retailer) (vtName : String)
    (hret : saleRetailer db s = some r)
    (hvt : saleVoucherTypeName db s = some vtName)
    (hown : r.agent_profile_id = agentId)
    (hrange : startDate ≤ endDate) :
    (endDate * dayMs ≤ s.created_at → s.created_at ≤ endDate * dayMs + (dayMs - 1) →
      ({ date := s.created_at, retailer_name := some r.name, type := vtName,
         value := s.sale_amount, commission := s.agent_commission,
         status := "Pending" } : StatementLine)
        ∈ (get_agent_commission_statement db agentId startDate endDate).pending_transactions)
    ∧ ((endDate + 1) * dayMs ≤ s.created_at →
      saleStatementRow db agentId startDate endDate s = none) := by
  constructor
  · intro hlo hhi
    show _ ∈ pendingLines db agentId startDate endDate
    rw [pendingLines, List.mem_filterMap]
    refine ⟨s, hmem, ?_⟩
    rw [saleStatementRow, hret, hvt]
    have hwin : inStatementWindow startDate endDate s.created_at = true := by
      rw [inStatementWindow]
      have h1 : startDate * dayMs ≤ s.created_at :=
        le_trans (Nat.mul_le_mul_right dayMs hrange) hlo
      have h2 : s.created_at < (endDate + 1) * dayMs := by
        have hd : 0 < dayMs := by decide
        have : endDate * dayMs + (dayMs - 1) < (endDate + 1) * dayMs := by
          rw [Nat.succ_mul]
          omega
        omega
      simp [h1, h2]
    simp [hown, hwin]
  · intro hge
    rw [saleStatementRow, hret, hvt]
    have hwin : inStatementWindow startDate endDate s.created_at = false := by
      rw [inStatementWindow]
      have : ¬ s.created_at < (endDate + 1) * dayMs := by omega
      simp [this]
    rw [hwin]
    simp

/-- Witness for the end-date boundary theorem: the demo sale, one second
into day 5, appears in the statement for days `[3, 5]`. -/
theorem statement_end_date_boundary_witness :
    ({ date := 5 * dayMs + 1000, retailer_name := some "Shop One",
       type := "Airtime", value := 100, commission := 10,
       status := "Pending" } : StatementLine)
      ∈ (get_agent_commission_statement demoDB "A" 3 5).pending_transactions :=
  (statement_end_date_boundary demoDB "A" 3 5 demoSale (by decide)
      demoRetailer "Airtime" (by decide) (by decide) (by decide)
      (by decide)).1 (by decide) (by decide)

/-- **C3, counterexample.** Zero rows match the write predicate (retailer
`r1` is owned by agent `A`, not `B`), yet the call reports no error and
leaves the store unchanged: it does not fail when zero rows match. -/
theorem updateRetailerStatus_zero_rows_silent :
    (demoDB.retailers.filter
        (fun r => r.id == "r1" && r.agent_profile_id == "B")).length = 0
    ∧ (updateRetailerStatus demoDB "B" "r1" RetailerStatus.blocked).error = none
    ∧ (updateRetailerStatus demoDB "B" "r1" RetailerStatus.blocked).db = demoDB := by
  decide

/-- **C3, amended.** For every non-empty `agentId`, `updateRetailerStatus`
updates `status` only on rows matching both `id = retailerId` and
`agent_profile_id = agentId` in the single write predicate; rows not
matching both are kept unchanged, and any changed row comes from a row
matching both.  When zero rows match, however, the call does not fail: it
returns `error = none` and leaves the store unchanged (silent success; the
caller cannot tell "not found / not owned" from a real update). -/
theorem updateRetailerStatus_ownership_predicate
    (db : DB) (agentId retailerId : String) (status : RetailerStatus)
    (hne : agentId ≠ "") :
    (updateRetailerStatus db agentId retailerId status).error = none
    ∧ (∀ r ∈ db.retailers, ¬(r.id = retailerId ∧ r.agent_profile_id = agentId) →
        r ∈ (updateRetailerStatus db agentId retailerId status).db.retailers)
    ∧ (∀ r ∈ (updateRetailerStatus db agentId retailerId status).db.retailers,
        r ∈ db.retailers ∨
        ∃ r₀ ∈ db.retailers, r₀.id = retailerId ∧ r₀.agent_profile_id = agentId ∧
          r = { r₀ with status := status })
    ∧ ((∀ r ∈ db.retailers, ¬(r.id = retailerId ∧ r.agent_profile_id = agentId)) →
        (updateRetailerStatus db agentId retailerId status).db = db) := by
  have hbeq : (agentId == "") = false := by
    simpa using hne
  have hfalse : ∀ r : Retailer, ¬(r.id = retailerId ∧ r.agent_profile_id = agentId) →
      (r.id == retailerId && r.agent_profile_id == agentId) = false := by
    intro r hnm
    by_cases hc : (r.id == retailerId && r.agent_profile_id == agentId) = true
    · exfalso
      apply hnm
      simpa [Bool.and_eq_true, beq_iff_eq] using hc
    · simpa using hc
  refine ⟨?_, ?_, ?_, ?_⟩
  · simp [updateRetailerStatus, hbeq]
  · intro r hr hnm
    simp only [updateRetailerStatus, hbeq, Bool.false_eq_true, if_false]
    refine List.mem_map.mpr ⟨r, hr, ?_⟩
    simp [hfalse r hnm]
  · intro r hr
    simp only [updateRetailerStatus, hbeq, Bool.false_eq_true, if_false] at hr
    rcases List.mem_map.mp hr with ⟨r₀, hr₀, heq⟩
    by_cases h : (r₀.id == retailerId && r₀.agent_profile_id == agentId) = true
    · right
      rcases (by simpa [Bool.and_eq_true, beq_iff_eq] using h :
          r₀.id = retailerId ∧ r₀.agent_profile_id = agentId) with ⟨h1, h2⟩
      exact ⟨r₀, hr₀, h1, h2, by rw [← heq]; simp [h]⟩
    · left
      have hf : (r₀.id == retailerId && r₀.agent_profile_id == agentId) = false := by
        simpa using h
      rw [← heq]
      simpa [hf] using hr₀
  · intro hall
    simp only [updateRetailerStatus, hbeq, Bool.false_eq_true, if_false]
    have hmap : db.retailers.map (fun r =>
        if r.id == retailerId && r.agent_profile_id == agentId then
          { r with status := status }
        else r) = db.retailers := by
      have hid : ∀ r ∈ db.retailers,
          (if r.id == retailerId && r.agent_profile_id == agentId then
            { r with status := status }
          else r) = r := by
        intro r hr
        simp [hfalse r (hall r hr)]
      rw [List.map_congr_left hid]
      simp
    rw [hmap]

/-- Witness for the amended status-update theorem at a concrete input:
agent `B` does not own retailer `r1`, and the call silently succeeds. -/
theorem updateRetailerStatus_ownership_predicate_witness :
    (updateRetailerStatus demoDB "B" "r1" RetailerStatus.blocked).error = none
    ∧ (updateRetailerStatus demoDB "B" "r1" RetailerStatus.blocked).db = demoDB :=
  ⟨(updateRetailerStatus_ownership_predicate demoDB "B" "r1"
      RetailerStatus.blocked (by decide)).1,
   (updateRetailerStatus_ownership_predicate demoDB "B" "r1"
      RetailerStatus.blocked (by decide)).2.2.2 (by decide)⟩

/-- **C4, counterexample.** On the doubly malformed input (empty
`agentId` and `endDate < startDate`, here `[5, 3]`),
`fetchCommissionStatement` still issues the RPC and returns no
validation error: malformed input is not rejected before querying. -/
theorem fetchCommissionStatement_no_validation :
    (fetchCommissionStatement demoDB "" 5 3).queryIssued = true
    ∧ (fetchCommissionStatement demoDB "" 5 3).error = none := by
  constructor <;> rfl

/-- **C4, amended.** Only `updateRetailerStatus` validates its input, and
only the empty-`agentId` case: it returns `Missing agent identifier`
without issuing a query.  `fetchCommissionStatement` performs no input
validation at all: for every input, including an empty `agentId` and a
range with `endDate < startDate`, it issues the RPC and returns no
validation error. -/
theorem input_validation_behavior
    (db : DB) (retailerId : String) (status : RetailerStatus)
    (agentId : String) (startDate endDate : Nat) :
    ((updateRetailerStatus db "" retailerId status).error
        = some "Missing agent identifier"
      ∧ (updateRetailerStatus db "" retailerId status).queryIssued = false)
    ∧ ((fetchCommissionStatement db agentId startDate endDate).queryIssued = true
      ∧ (fetchCommissionStatement db agentId startDate endDate).error = none) :=
  ⟨⟨rfl, rfl⟩, ⟨rfl, rfl⟩⟩

/-- An entry of the retailer roster: the retailer row augmented with the
aggregates computed from its sales query. -/
structure RosterEntry where
  retailer : Retailer
  sales_count : Nat
  commission_earned : Int
  total_sales : Int
deriving DecidableEq, Repr

/-- The per-retailer body of the `fetchMyRetailers` loop: a failed sales
query yields the retailer with zeroed aggregates (both the returned-error
path, where the row data is null, and the thrown path behave this way);
a successful query yields count, summed commission and summed value. -/
def rosterEntryFor (fetchSales : String → Except String (List Sale))
    (r : Retailer) : RosterEntry :=
  match fetchSales r.id with
  | Except.error _ =>
      { retailer := r, sales_count := 0, commission_earned := 0,
        total_sales := 0 }
  | Except.ok rows =>
      { retailer := r, sales_count := rows.length,
        commission_earned := sumBy (fun s => s.agent_commission) rows,
        total_sales := sumBy (fun s => s.sale_amount) rows }

/-- `fetchMyRetailers(agentId)`: fails as a whole only when the retailer
list query fails; otherwise it emits one entry per retailer, absorbing
per-retailer sales-query failures.  The two fallible queries are passed
in as the retailer-list fetch result and the per-retailer sales fetch. -/
def fetchMyRetailers (fetchRetailers : Except String (List Retailer))
    (fetchSales : String → Except String (List Sale)) :
    Except String (List RosterEntry) :=
  match fetchRetailers with
  | Except.error e => Except.error e
  | Except.ok rs => Except.ok (rs.map (rosterEntryFor fetchSales))

/-- **C5.** Whenever the retailer list fetch succeeds, `fetchMyRetailers`
succeeds with exactly one entry per retailer: an entry whose sales query
failed carries `sales_count = 0`, `commission_earned = 0` and
`total_sales = 0`, while entries whose query succeeded carry the
aggregates of their rows. -/
theorem fetchMyRetailers_partial_failure_isolation
    (rs : List Retailer) (fetchSales : String → Except String (List Sale)) :
    ∃ out, fetchMyRetailers (Except.ok rs) fetchSales = Except.ok out
      ∧ out.length = rs.length
      ∧ (∀ i (hi : i < rs.length) e,
          fetchSales (rs.get ⟨i, hi⟩).id = Except.error e →
          out[i]? = some { retailer := rs.get ⟨i, hi⟩, sales_count := 0,
                           commission_earned := 0, total_sales := 0 })
      ∧ (∀ i (hi : i < rs.length) rows,
          fetchSales (rs.get ⟨i, hi⟩).id = Except.ok rows →
          out[i]? = some { retailer := rs.get ⟨i, hi⟩,
                           sales_count := rows.length,
                           commission_earned :=
                             sumBy (fun s => s.agent_commission) rows,
                           total_sales :=
                             sumBy (fun s => s.sale_amount) rows }) := by
  refine ⟨rs.map (rosterEntryFor fetchSales), rfl, by simp, ?_, ?_⟩
  · intro i hi e hfail
    rw [List.getElem?_map, List.getElem?_eq_getElem hi]
    rw [Option.map_some']
    have : rosterEntryFor fetchSales rs[i]
        = { retailer := rs.get ⟨i, hi⟩, sales_count := 0,
            commission_earned := 0, total_sales := 0 } := by
      rw [rosterEntryFor]
      rw [List.get_eq_getElem] at hfail
      rw [hfail]
      rfl
    rw [this]
  · intro i hi rows hok
    rw [List.getElem?_map, List.getElem?_eq_getElem hi]
    rw [Option.map_some']
    have : rosterEntryFor fetchSales rs[i]
        = { retailer := rs.get ⟨i, hi⟩, sales_count := rows.length,
            commission_earned := sumBy (fun s => s.agent_commission) rows,
            total_sales := sumBy (fun s => s.sale_amount) rows } := by
      rw [rosterEntryFor]
      rw [List.get_eq_getElem] at hok
      rw [hok]
      rfl
    rw [this]

/-- Roster demo: three retailers of agent `A`; the middle one's sales
query fails while the first and third return one sale each. -/
def rosterR2 : Retailer :=
  { id := "r2", name := "Shop Two", status := RetailerStatus.active,
    agent_profile_id := "A" }

/-- Third roster demo retailer. -/
def rosterR3 : Retailer :=
  { id := "r3", name := "Shop Three", status := RetailerStatus.active,
    agent_profile_id := "A" }

/-- Demo sale of the third retailer. -/
def rosterSale3 : Sale :=
  { id := "s3", terminal_id := "t3", voucher_inventory_id := "vi1",
    created_at := 2000, sale_amount := 200, agent_commission := 20 }

/-- Demo per-retailer sales fetch: fails for `r2`, succeeds elsewhere. -/
def demoFetchSales : String → Except String (List Sale) := fun rid =>
  if rid == "r1" then Except.ok [demoSale]
  else if rid == "r2" then Except.error "sales query failed"
  else Except.ok [rosterSale3]

/-- Witness: with 3 retailers whose 2nd sales query fails, the roster
succeeds with exactly 3 entries, the 2nd zeroed and the 1st and 3rd
carrying their aggregated values. -/
theorem fetchMyRetailers_partial_failure_isolation_witness :
    ∃ out, fetchMyRetailers (Except.ok [demoRetailer, rosterR2, rosterR3])
          demoFetchSales = Except.ok out
      ∧ out.length = 3
      ∧ out[1]? = some { retailer := rosterR2, sales_count := 0,
                         commission_earned := 0, total_sales := 0 }
      ∧ out[0]? = some { retailer := demoRetailer, sales_count := 1,
                         commission_earned := 10, total_sales := 100 }
      ∧ out[2]? = some { retailer := rosterR3, sales_count := 1,
                         commission_earned := 20, total_sales := 200 } := by
  obtain ⟨out, h1, h2, hfail, hok⟩ :=
    fetchMyRetailers_partial_failure_isolation
      [demoRetailer, rosterR2, rosterR3] demoFetchSales
  refine ⟨out, h1, h2, ?_, ?_, ?_⟩
  · exact hfail 1 (by decide) "sales query failed" rfl
  · exact hok 0 (by decide) [demoSale] rfl
  · exact hok 2 (by decide) [rosterSale3] rfl

/-- Result of the retailer detail fetch: the retailer row plus its
terminal list. -/
structure RetailerDetailOut where
  retailer : Retailer
  terminals : List Terminal
deriving DecidableEq, Repr

/-- `fetchRetailerDetail(retailerId, agentId)`: one select filtered by
both `id = retailerId` and `agent_profile_id = agentId` with `.single()`
semantics (exactly one row or an error with null data), then the
retailer's terminals. -/
def fetchRetailerDetail (db : DB) (retailerId agentId : String) :
    Option RetailerDetailOut × Option String :=
  match db.retailers.filter
      (fun r => r.id == retailerId && r.agent_profile_id == agentId) with
  | [r] =>
      (some { retailer := r,
              terminals := db.terminals.filter
                (fun u => u.retailer_id == retailerId) }, none)
  | _ => (none, some "not found")

/-- **C6.** `fetchRetailerDetail` filters by both `id` and
`agent_profile_id` and fails closed: any data it returns belongs to a
retailer matching both keys, and when no retailer matches both — in
particular when the retailer exists but is owned by a different agent —
it returns null data with a not-found error, never the retailer's data. -/
theorem fetchRetailerDetail_fails_closed (db : DB) (retailerId agentId : String) :
    (∀ d, (fetchRetailerDetail db retailerId agentId).1 = some d →
        d.retailer.id = retailerId ∧ d.retailer.agent_profile_id = agentId
        ∧ d.retailer ∈ db.retailers)
    ∧ ((∀ r ∈ db.retailers, r.id = retailerId → r.agent_profile_id ≠ agentId) →
        fetchRetailerDetail db retailerId agentId = (none, some "not found")) := by
  constructor
  · intro d hd
    rw [fetchRetailerDetail] at hd
    rcases hf : db.retailers.filter
        (fun r => r.id == retailerId && r.agent_profile_id == agentId)
      with _ | ⟨r, _ | ⟨r2, rest⟩⟩
    · rw [hf] at hd
      simp at hd
    · rw [hf] at hd
      simp only [Option.some_inj] at hd
      have hr : r ∈ db.retailers.filter
          (fun q => q.id == retailerId && q.agent_profile_id == agentId) := by
        rw [hf]
        exact List.mem_singleton.mpr rfl
      rcases List.mem_filter.mp hr with ⟨hmem, hpred⟩
      rcases (by simpa [Bool.and_eq_true, beq_iff_eq] using hpred :
          r.id = retailerId ∧ r.agent_profile_id = agentId) with ⟨h1, h2⟩
      rw [← hd]
      exact ⟨h1, h2, hmem⟩
    · rw [hf] at hd
      simp at hd
  · intro hnone
    rw [fetchRetailerDetail]
    have hf : db.retailers.filter
        (fun r => r.id == retailerId && r.agent_profile_id == agentId) = [] := by
      rw [List.filter_eq_nil_iff]
      intro r hr
      by_cases hc : (r.id == retailerId && r.agent_profile_id == agentId) = true
      · exfalso
        rcases (by simpa [Bool.and_eq_true, beq_iff_eq] using hc :
            r.id = retailerId ∧ r.agent_profile_id = agentId) with ⟨h1, h2⟩
        exact hnone r hr h1 h2
      · simpa using hc
    rw [hf]

/-- Witness: retailer `r1` exists in the demo store but belongs to agent
`A`; fetching it as agent `B` returns null data and "not found". -/
theorem fetchRetailerDetail_fails_closed_witness :
    fetchRetailerDetail demoDB "r1" "B" = (none, some "not found") :=
  (fetchRetailerDetail_fails_closed demoDB "r1" "B").2 (by decide)

/-- A row of the `get_agent_summary` RPC result consumed by
`fetchAgentSummary`. -/
structure AgentSummaryRow where
  retailer_count : Nat
  total_commission : Int
  paid_commission : Int
deriving DecidableEq, Repr

/-- `fetchAgentSummary(agentId)`: forwards an RPC failure; on success
takes the first row, and when the result set is empty returns an
all-zeros summary with no error. -/
def fetchAgentSummary (rpcResult : Except String (List AgentSummaryRow)) :
    Option AgentSummaryRow × Option String :=
  match rpcResult with
  | Except.error e => (none, some e)
  | Except.ok [] =>
      (some { retailer_count := 0, total_commission := 0,
              paid_commission := 0 }, none)
  | Except.ok (row :: _) => (some row, none)

/-- **C10.** Whenever the `get_agent_summary` RPC succeeds with an empty
result set, `fetchAgentSummary` reports an all-zeros summary with no
error — indistinguishable from an agent with genuinely zero retailers
and zero commission, not a null/unavailable result. -/
theorem fetchAgentSummary_empty_is_zeros
    (rpcResult : Except String (List AgentSummaryRow))
    (h : rpcResult = Except.ok []) :
    fetchAgentSummary rpcResult
      = (some { retailer_count := 0, total_commission := 0,
                paid_commission := 0 }, none) := by
  rw [h]
  rfl

/-- Witness: the empty RPC result evaluates to the all-zeros summary. -/
theorem fetchAgentSummary_empty_is_zeros_witness :
    fetchAgentSummary (Except.ok [])
      = (some { retailer_count := 0, total_commission := 0,
                paid_commission := 0 }, none) :=
  fetchAgentSummary_empty_is_zeros (Except.ok []) rfl

/-- The retailer sales summary shape. -/
structure RetailerSalesSummary where
  today_count : Nat
  today_value : Int
  mtd_count : Nat
  mtd_value : Int
  total_count : Nat
  total_value : Int
  total_commission : Int
deriving DecidableEq, Repr

/-- `fetchRetailerSalesSummary(retailerId)` over a fixed snapshot of the
sales table: three queries over the same retailer-filtered Sale set, the
first bounded below by the start of the current day, the second by the
first of the current month, the third unbounded; each reduced to a count
and a summed value (plus summed commission for the all-time window). -/
def fetchRetailerSalesSummary (db : DB) (retailerId : String)
    (todayStart monthStart : Nat) : RetailerSalesSummary :=
  let totalData := db.sales.filter (saleOfRetailer db retailerId)
  let todayData := totalData.filter (fun s => decide (todayStart ≤ s.created_at))
  let mtdData := totalData.filter (fun s => decide (monthStart ≤ s.created_at))
  { today_count := todayData.length,
    today_value := sumBy (fun s => s.sale_amount) todayData,
    mtd_count := mtdData.length,
    mtd_value := sumBy (fun s => s.sale_amount) mtdData,
    total_count := totalData.length,
    total_value := sumBy (fun s => s.sale_amount) totalData,
    total_commission := sumBy (fun s => s.agent_commission) totalData }

/-- A list filtered by a pointwise-stronger predicate is no longer. -/
theorem length_filter_le_of_imp (l : List α) (p q : α → Bool)
    (h : ∀ x ∈ l, p x = true → q x = true) :
    (l.filter p).length ≤ (l.filter q).length := by
  induction l with
  | nil => simp
  | cons x xs ih =>
    have ih2 := ih (fun y hy => h y (List.mem_cons_of_mem x hy))
    rcases hp : p x with _ | _
    · rcases hq : q x with _ | _
      · simpa [List.filter_cons, hp, hq] using ih2
      · simp only [List.filter_cons, hp, hq]
        simp only [Bool.false_eq_true, if_false, if_true, List.length_cons]
        exact Nat.le_succ_of_le ih2
    · have hq := h x (List.mem_cons_self x xs) hp
      simp only [List.filter_cons, hp, hq, if_true, List.length_cons]
      exact Nat.succ_le_succ ih2

/-- With non-negative weights, the sum over a list filtered by a
pointwise-stronger predicate is no larger. -/
theorem sumBy_filter_le_of_imp (l : List α) (f : α → Int) (p q : α → Bool)
    (h : ∀ x ∈ l, p x = true → q x = true)
    (hnn : ∀ x ∈ l, 0 ≤ f x) :
    sumBy f (l.filter p) ≤ sumBy f (l.filter q) := by
  induction l with
  | nil => simp [sumBy]
  | cons x xs ih =>
    have ih2 := ih (fun y hy => h y (List.mem_cons_of_mem x hy))
      (fun y hy => hnn y (List.mem_cons_of_mem x hy))
    have hx : 0 ≤ f x := hnn x (List.mem_cons_self x xs)
    rcases hp : p x with _ | _
    · rcases hq : q x with _ | _
      · simpa [List.filter_cons, hp, hq] using ih2
      · simp only [List.filter_cons, hp, hq]
        simp only [Bool.false_eq_true, if_false, if_true, sumBy]
        omega
    · have hq := h x (List.mem_cons_self x xs) hp
      simp only [List.filter_cons, hp, hq, if_true, sumBy]
      omega

/-- With non-negative weights, filtering cannot increase the sum. -/
theorem sumBy_filter_le (l : List α) (f : α → Int) (p : α → Bool)
    (hnn : ∀ x ∈ l, 0 ≤ f x) :
    sumBy f (l.filter p) ≤ sumBy f l := by
  induction l with
  | nil => simp [sumBy]
  | cons x xs ih =>
    have ih2 := ih (fun y hy => hnn y (List.mem_cons_of_mem x hy))
    have hx : 0 ≤ f x := hnn x (List.mem_cons_self x xs)
    rcases hp : p x with _ | _
    · simp only [List.filter_cons, hp, Bool.false_eq_true, if_false, sumBy]
      omega
    · simp only [List.filter_cons, hp, if_true, sumBy]
      omega

/-- **C8.** For a fixed snapshot and any retailer, with the start of the
current day no earlier than the first of the month, the summary windows
are nested: `today_count ≤ mtd_count ≤ total_count`, and, when all sale
amounts are non-negative, `today_value ≤ mtd_value ≤ total_value`. -/
theorem retailer_sales_summary_window_monotone
    (db : DB) (retailerId : String) (todayStart monthStart : Nat)
    (hwin : monthStart ≤ todayStart)
    (hnn : ∀ s ∈ db.sales, 0 ≤ s.sale_amount) :
    (fetchRetailerSalesSummary db retailerId todayStart monthStart).today_count
      ≤ (fetchRetailerSalesSummary db retailerId todayStart monthStart).mtd_count
    ∧ (fetchRetailerSalesSummary db retailerId todayStart monthStart).mtd_count
      ≤ (fetchRetailerSalesSummary db retailerId todayStart monthStart).total_count
    ∧ (fetchRetailerSalesSummary db retailerId todayStart monthStart).today_value
      ≤ (fetchRetailerSalesSummary db retailerId todayStart monthStart).mtd_value
    ∧ (fetchRetailerSalesSummary db retailerId todayStart monthStart).mtd_value
      ≤ (fetchRetailerSalesSummary db retailerId todayStart monthStart).total_value := by
  have himp : ∀ s ∈ db.sales.filter (saleOfRetailer db retailerId),
      decide (todayStart ≤ s.created_at) = true →
      decide (monthStart ≤ s.created_at) = true := by
    intro s _ hs
    rw [decide_eq_true_eq] at hs
    rw [decide_eq_true_eq]
    exact le_trans hwin hs
  have hnn2 : ∀ s ∈ db.sales.filter (saleOfRetailer db retailerId),
      0 ≤ s.sale_amount := fun s hs => hnn s (List.mem_of_mem_filter hs)
  refine ⟨?_, ?_, ?_, ?_⟩
  · exact length_filter_le_of_imp _ _ _ himp
  · exact List.length_filter_le _ _
  · exact sumBy_filter_le_of_imp _ _ _ _ himp hnn2
  · exact sumBy_filter_le _ _ _ hnn2

/-- Witness for the window monotonicity at a concrete snapshot: the demo
store, retailer `r1`, day 5 as today and day 4 as the first of month. -/
theorem retailer_sales_summary_window_monotone_witness :
    (fetchRetailerSalesSummary demoDB "r1" (5 * dayMs) (4 * dayMs)).today_count
      ≤ (fetchRetailerSalesSummary demoDB "r1" (5 * dayMs) (4 * dayMs)).mtd_count
    ∧ (fetchRetailerSalesSummary demoDB "r1" (5 * dayMs) (4 * dayMs)).mtd_count
      ≤ (fetchRetailerSalesSummary demoDB "r1" (5 * dayMs) (4 * dayMs)).total_count
    ∧ (fetchRetailerSalesSummary demoDB "r1" (5 * dayMs) (4 * dayMs)).today_value
      ≤ (fetchRetailerSalesSummary demoDB "r1" (5 * dayMs) (4 * dayMs)).mtd_value
    ∧ (fetchRetailerSalesSummary demoDB "r1" (5 * dayMs) (4 * dayMs)).mtd_value
      ≤ (fetchRetailerSalesSummary demoDB "r1" (5 * dayMs) (4 * dayMs)).total_value :=
  retailer_sales_summary_window_monotone demoDB "r1" (5 * dayMs) (4 * dayMs)
    (by decide) (by decide)

/-- The fields of the bank-account form (`BankAccountInput`). -/
structure BankAccountInput where
  bank_name : String
  account_holder : String
  account_number : String
  branch_code : Option String
  account_type : String
deriving DecidableEq, Repr

/-- The `bank_accounts` table plus the id the store would assign to the
next inserted row. -/
structure BankState where
  accounts : List BankAccountRow
  nextId : Nat
deriving DecidableEq, Repr

/-- The rows matching `profile_id = profileId and is_primary = true`. -/
def primariesFor (accounts : List BankAccountRow) (profileId : String) :
    List BankAccountRow :=
  accounts.filter (fun a => a.profile_id == profileId && a.is_primary)

/-- The update payload of `saveBankAccount`: overwrite the form fields
and `updated_at`; `id`, `profile_id` and `is_primary` are untouched. -/
def applyBankInput (inp : BankAccountInput) (now : Nat)
    (a : BankAccountRow) : BankAccountRow :=
  { a with bank_name := inp.bank_name, account_holder := inp.account_holder,
           account_number := inp.account_number,
           branch_code := inp.branch_code,
           account_type := inp.account_type, updated_at := now }

/-- `saveBankAccount(profileId, bankData)`: first select the profile's
primary row with `.single()`; exactly one row leads to an update keyed by
that row's `id`, while the no-row (and multi-row) `.single()` error with
code `PGRST116` leads to inserting a fresh row with `is_primary = true`. -/
def saveBankAccount (st : BankState) (profileId : String)
    (inp : BankAccountInput) (now : Nat) : BankState :=
  match primariesFor st.accounts profileId with
  | [existing] =>
      { st with accounts := st.accounts.map (fun a =>
          if a.id == existing.id then applyBankInput inp now a else a) }
  | _ =>
      { accounts := st.accounts ++
          [{ id := st.nextId, profile_id := profileId,
             bank_name := inp.bank_name,
             account_holder := inp.account_holder,
             account_number := inp.account_number,
             branch_code := inp.branch_code,
             account_type := inp.account_type, is_primary := true,
             created_at := now, updated_at := now }],
        nextId := st.nextId + 1 }

/-- A sequence of `saveBankAccount` calls, each a
`(profileId, input, now)` triple, applied in order. -/
def runSaveCalls (st : BankState)
    (calls : List (String × BankAccountInput × Nat)) : BankState :=
  calls.foldl (fun s c => saveBankAccount s c.1 c.2.1 c.2.2) st

/-- Mapping by a function that does not change a predicate's verdict
commutes with filtering by that predicate. -/
theorem filter_map_eq_map_filter (l : List α) (g : α → α) (p : α → Bool)
    (h : ∀ a ∈ l, p (g a) = p a) :
    (l.map g).filter p = (l.filter p).map g := by
  induction l with
  | nil => simp
  | cons x xs ih =>
    have ih2 := ih (fun y hy => h y (List.mem_cons_of_mem x hy))
    have hx := h x (List.mem_cons_self x xs)
    rcases hp : p x with _ | _
    · simp [List.filter_cons, hp, hx, ih2]
    · simp [List.filter_cons, hp, hx, ih2]

/-- The update payload keeps `profile_id` and `is_primary`, so it never
changes whether a row counts as a profile's primary row. -/
theorem bankUpdate_preserves_primary_pred
    (inp : BankAccountInput) (now : Nat) (eid : Nat) (q : String)
    (a : BankAccountRow) :
    (((if a.id == eid then applyBankInput inp now a else a).profile_id == q)
      && (if a.id == eid then applyBankInput inp now a else a).is_primary)
      = (a.profile_id == q && a.is_primary) := by
  by_cases hc : (a.id == eid) = true
  · simp [hc, applyBankInput]
  · have : (a.id == eid) = false := by simpa using hc
    simp [this]

/-- One `saveBankAccount` call keeps every profile at no more than one
primary row. -/
theorem saveBankAccount_preserves_single_primary
    (st : BankState) (pid : String) (inp : BankAccountInput) (now : Nat)
    (hinv : ∀ q, (primariesFor st.accounts q).length ≤ 1) :
    ∀ q, (primariesFor (saveBankAccount st pid inp now).accounts q).length ≤ 1 := by
  intro q
  rcases h : primariesFor st.accounts pid with _ | ⟨a, _ | ⟨b, rest⟩⟩
  · simp only [saveBankAccount, h]
    rw [primariesFor, List.filter_append]
    by_cases hq : q = pid
    · subst hq
      have hempty : st.accounts.filter
          (fun a => a.profile_id == q && a.is_primary) = [] := h
      rw [hempty]
      simp
    · have hne : (pid == q) = false := by
        simp only [beq_eq_false_iff_ne, ne_eq]
        exact fun hc => hq hc.symm
      have hone : List.filter (fun a => a.profile_id == q && a.is_primary)
          [({ id := st.nextId, profile_id := pid,
              bank_name := inp.bank_name,
              account_holder := inp.account_holder,
              account_number := inp.account_number,
              branch_code := inp.branch_code,
              account_type := inp.account_type, is_primary := true,
              created_at := now, updated_at := now } : BankAccountRow)] = [] := by
        simp [List.filter_cons, hne]
      rw [hone]
      simpa using hinv q
  · simp only [saveBankAccount, h]
    rw [primariesFor, filter_map_eq_map_filter _ _ _
      (fun b _ => bankUpdate_preserves_primary_pred inp now a.id q b)]
    rw [List.length_map]
    exact hinv q
  · exfalso
    have := hinv pid
    rw [h] at this
    simp at this

/-- Any sequence of `saveBankAccount` calls keeps every profile at no
more than one primary row. -/
theorem runSaveCalls_single_primary
    (calls : List (String × BankAccountInput × Nat)) :
    ∀ st : BankState, (∀ q, (primariesFor st.accounts q).length ≤ 1) →
    ∀ q, (primariesFor (runSaveCalls st calls).accounts q).length ≤ 1 := by
  induction calls with
  | nil => intro st h q; exact h q
  | cons c cs ih =>
    intro st h q
    exact ih _ (saveBankAccount_preserves_single_primary st c.1 c.2.1 c.2.2 h) q

/-- **C9.** `saveBankAccount` enforces the single-primary invariant: with
no existing primary row for the profile it inserts exactly one new row
with `is_primary = true`; with one existing primary row it updates that
row's fields in place (same row count, same row id) and inserts nothing;
and starting from any store obeying the invariant, any sequence of
`saveBankAccount` calls leaves at most one `is_primary = true` row per
profile. -/
theorem saveBankAccount_single_primary
    (st : BankState) (pid : String) (inp : BankAccountInput) (now : Nat) :
    (primariesFor st.accounts pid = [] →
      (saveBankAccount st pid inp now).accounts.length
          = st.accounts.length + 1
      ∧ primariesFor (saveBankAccount st pid inp now).accounts pid
          = [{ id := st.nextId, profile_id := pid,
               bank_name := inp.bank_name,
               account_holder := inp.account_holder,
               account_number := inp.account_number,
               branch_code := inp.branch_code,
               account_type := inp.account_type, is_primary := true,
               created_at := now, updated_at := now }])
    ∧ (∀ a, primariesFor st.accounts pid = [a] →
      (saveBankAccount st pid inp now).accounts.length = st.accounts.length
      ∧ primariesFor (saveBankAccount st pid inp now).accounts pid
          = [applyBankInput inp now a])
    ∧ ((∀ q, (primariesFor st.accounts q).length ≤ 1) →
      ∀ calls q,
        (primariesFor (runSaveCalls st calls).accounts q).length ≤ 1) := by
  refine ⟨?_, ?_, ?_⟩
  · intro h
    simp only [saveBankAccount, h]
    constructor
    · simp
    · rw [primariesFor, List.filter_append]
      have hempty : st.accounts.filter
          (fun a => a.profile_id == pid && a.is_primary) = [] := h
      rw [hempty]
      simp [List.filter_cons]
  · intro a h
    simp only [saveBankAccount, h]
    constructor
    · simp
    · rw [primariesFor, filter_map_eq_map_filter _ _ _
        (fun b _ => bankUpdate_preserves_primary_pred inp now a.id pid b)]
      have ha : st.accounts.filter
          (fun b => b.profile_id == pid && b.is_primary) = [a] := h
      rw [ha]
      simp
  · intro hinv calls q
    exact runSaveCalls_single_primary calls st hinv q

/-- Witness for the single-primary theorem from the empty store: the
first save for profile `A` inserts exactly one primary row, and every
further sequence of calls keeps at most one primary per profile. -/
theorem saveBankAccount_single_primary_witness :
    (saveBankAccount { accounts := [], nextId := 7 } "A"
        { bank_name := "First Bank", account_holder := "Agent A",
          account_number := "12345", branch_code := none,
          account_type := "cheque" } 50).accounts.length = 0 + 1
    ∧ primariesFor (saveBankAccount { accounts := [], nextId := 7 } "A"
        { bank_name := "First Bank", account_holder := "Agent A",
          account_number := "12345", branch_code := none,
          account_type := "cheque" } 50).accounts "A"
        = [{ id := 7, profile_id := "A", bank_name := "First Bank",
             account_holder := "Agent A", account_number := "12345",
             branch_code := none, account_type := "cheque",
             is_primary := true, created_at := 50, updated_at := 50 }] :=
  (saveBankAccount_single_primary { accounts := [], nextId := 7 } "A"
      { bank_name := "First Bank", account_holder := "Agent A",
        account_number := "12345", branch_code := none,
        account_type := "cheque" } 50).1 rfl
